import Mathlib

/-!
Verification of the redpanda testcontainers module (modules/redpanda).

The Go source is shallowly embedded: the pure configuration data
(`options` and its option functions, the container creation request, the
wait-strategy parameters, the HTTP response matcher) is translated
directly; every call to an external collaborator (the container runtime,
the filesystem, the template engine, the admin client) is an oracle field
of an environment record returning `Except String`, and the orchestrator
`StartContainer` is a function of that environment which also records the
sequence of external calls it attempts, as a list of events.
-/

namespace Redpanda

/-! ## Options (src/modules/redpanda/opts.go) -/

/-- The configuration aggregate of the module (struct `options`).
The Go map `ServiceAccounts map[string]string` is modelled as an
association list in the map's iteration order, with Go-map insertion
semantics given by `mapInsert`. -/
structure options where
  Superusers : List String
  KafkaEnableAuthorization : Bool
  KafkaAuthenticationMethod : String
  SchemaRegistryAuthenticationMethod : String
  ServiceAccounts : List (String × String)
  Image : String
deriving Repr, DecidableEq

/-- Insertion into a Go map modelled on an association list: an existing
key's value is replaced in place, a new key is appended. -/
def mapInsert (m : List (String × String)) (k v : String) : List (String × String) :=
  match m with
  | [] => [(k, v)]
  | (k', v') :: rest => if k' = k then (k, v) :: rest else (k', v') :: mapInsert rest k v

/-- Lookup in a Go map modelled on an association list. -/
def mapLookup (m : List (String × String)) (k : String) : Option String :=
  match m with
  | [] => none
  | (k', v') :: rest => if k' = k then some v' else mapLookup rest k

/-- `defaultOptions` of opts.go. -/
def defaultOptions : options :=
  { KafkaEnableAuthorization := false
    Superusers := []
    KafkaAuthenticationMethod := "none"
    SchemaRegistryAuthenticationMethod := "none"
    ServiceAccounts := []
    Image := "docker.redpanda.com/redpandadata/redpanda:v23.1.6" }

/-- `WithNewServiceAccount`: the closure `o.ServiceAccounts[username] = password`. -/
def WithNewServiceAccount (username password : String) (o : options) : options :=
  { o with ServiceAccounts := mapInsert o.ServiceAccounts username password }

/-- `WithSuperusers`: the closure `o.Superusers = superusers`. -/
def WithSuperusers (superusers : List String) (o : options) : options :=
  { o with Superusers := superusers }

/-- `WithEnableSASL`: the closure `o.KafkaAuthenticationMethod = "sasl"`. -/
def WithEnableSASL (o : options) : options :=
  { o with KafkaAuthenticationMethod := "sasl" }

/-- `WithEnableKafkaAuthorization`: the closure `o.KafkaEnableAuthorization = true`. -/
def WithEnableKafkaAuthorization (o : options) : options :=
  { o with KafkaEnableAuthorization := true }

/-- `WithEnableSchemaRegistryHTTPBasicAuth` as coded: the function's first
return statement returns a closure over the generic container request (its
body, `req.`, is a syntax error and in any case does not touch the options
value), and the second return statement — the closure that would assign
`o.SchemaRegistryAuthenticationMethod = "http_basic"` — is unreachable dead
code after the first return. As a transformer of the options value the
coded function therefore changes nothing. -/
def WithEnableSchemaRegistryHTTPBasicAuth_asCoded (o : options) : options := o

/-- Modelled from the spec: the schema-registry authentication-mode option
is intended to set the schema-registry authentication method to HTTP basic
authentication ("http_basic"), which is also what the unreachable second
closure in the source would do. -/
def WithEnableSchemaRegistryHTTPBasicAuth_spec (o : options) : options :=
  { o with SchemaRegistryAuthenticationMethod := "http_basic" }

/-- Option application in `StartContainer`: ordered application of the
option functions over `defaultOptions` (the loop `for _, opt := range opts`). -/
def applyOptions (opts : List (options → options)) : options :=
  opts.foldl (fun s o => o s) defaultOptions

/-! ## Constants, container request and wait strategy (src/unnamed/part_000) -/

/-- `defaultKafkaAPIPort`. -/
def defaultKafkaAPIPort : String := "9092/tcp"

/-- `defaultAdminAPIPort`. -/
def defaultAdminAPIPort : String := "9644/tcp"

/-- `defaultSchemaRegistryPort`. -/
def defaultSchemaRegistryPort : String := "8081/tcp"

/-- A file injected at container creation (`testcontainers.ContainerFile`). -/
structure ContainerFile where
  HostFilePath : String
  ContainerFilePath : String
  FileMode : Nat
deriving Repr, DecidableEq

/-- The parts of `testcontainers.ContainerRequest` that `StartContainer` sets. -/
structure ContainerRequest where
  Image : String
  User : String
  Files : List ContainerFile
  ExposedPorts : List String
  Entrypoint : List String
  Cmd : List String
deriving Repr, DecidableEq

/-- The container creation request built in `StartContainer` (step 3),
parameterized by the names of the two temporary host files. -/
def containerReq (settings : options) (entrypointFileName bootstrapFileName : String) :
    ContainerRequest :=
  { Image := settings.Image
    User := "root:root"
    Files := [
      { HostFilePath := entrypointFileName
        ContainerFilePath := "/entrypoint-tc.sh"
        FileMode := 700 },
      { HostFilePath := bootstrapFileName
        ContainerFilePath := "/etc/redpanda/.bootstrap.yaml"
        FileMode := 700 }]
    ExposedPorts := [defaultKafkaAPIPort, defaultAdminAPIPort, defaultSchemaRegistryPort]
    Entrypoint := []
    Cmd := ["/entrypoint-tc.sh", "redpanda", "start", "--mode=dev-container"] }

/-- Parameters of the `wait.ForLog` strategy used in step 6. -/
structure LogStrategy where
  log : String
  pollIntervalMs : Nat
deriving Repr, DecidableEq

/-- Parameters of the `wait.ForHTTP` strategy used in step 6 (the response
matcher is the separate definition `responseMatcher`). -/
structure HTTPStrategy where
  path : String
  port : String
  pollIntervalMs : Nat
deriving Repr, DecidableEq

/-- The composite `wait.ForAll(...)` strategy used in step 6. -/
structure ForAllStrategy where
  forLog : LogStrategy
  forHTTP : HTTPStrategy
deriving Repr, DecidableEq

/-- The wait strategy `StartContainer` passes to `WaitUntilReady`:
`wait.ForAll(wait.ForLog(...).WithPollInterval(100ms), wait.ForHTTP(...)
.WithPort(9644/tcp).WithResponseMatcher(responseMatcher).WithPollInterval(100ms))`. -/
def redpandaWaitStrategy : ForAllStrategy :=
  { forLog := { log := "Successfully started Redpanda!", pollIntervalMs := 100 }
    forHTTP := { path := "/v1/cluster/health_overview", port := defaultAdminAPIPort,
                 pollIntervalMs := 100 } }

/-- `admin.ClusterHealthOverview` restricted to the field the matcher reads. -/
structure ClusterHealthOverview where
  IsHealthy : Bool
deriving Repr, DecidableEq

/-- Outcome of `io.ReadAll(body)` inside the response matcher: either the
read fails, or it yields the body's contents. -/
inductive BodyRead where
  | readFailed
  | ok (contents : String)
deriving Repr, DecidableEq

/-- The response matcher closure of step 6: read the body (a read error
yields false), `json.Unmarshal` it into a `ClusterHealthOverview` (an
unmarshal error yields false), and return its `IsHealthy` flag.
`jsonUnmarshal` is the external JSON decoder. -/
def responseMatcher (jsonUnmarshal : String → Option ClusterHealthOverview)
    (body : BodyRead) : Bool :=
  match body with
  | .readFailed => false
  | .ok contents =>
    match jsonUnmarshal contents with
    | none => false
    | some healthOverview => healthOverview.IsHealthy

/-- Result of one poll attempt of a wait strategy. -/
inductive ProbeOutcome where
  | ready
  | retry
  | fatal
deriving Repr, DecidableEq

/-- Modelled from the spec: one poll attempt of the log-marker check
(`wait.ForLog`, whose driver loop is not under src/): the attempt is ready
exactly when the literal success line has been observed on the log stream. -/
def logPollOutcome (markerSeen : Nat → Bool) (n : Nat) : ProbeOutcome :=
  if markerSeen n then .ready else .retry

/-- Modelled from the spec: one poll attempt of the HTTP health check
(`wait.ForHTTP`'s driver loop is not under src/): a connection failure
(no response, `none`) is retried, and an obtained response body is ready
exactly when the response matcher accepts it; a rejected body is retried,
never fatal. -/
def httpPollOutcome (jsonUnmarshal : String → Option ClusterHealthOverview)
    (response : Option BodyRead) : ProbeOutcome :=
  match response with
  | none => .retry
  | some body => if responseMatcher jsonUnmarshal body then .ready else .retry

/-- Modelled from the spec: a polled strategy has succeeded by deadline `t`
when some attempt no later than `t` reported ready. -/
def strategyReadyBy (attempts : Nat → ProbeOutcome) (t : Nat) : Prop :=
  ∃ n, n ≤ t ∧ attempts n = .ready

/-- Modelled from the spec: `wait.ForAll` (not under src/) runs its checks
independently, each on its own poll interval, and does not report success
until every check has individually succeeded. -/
def forAllReadyBy (checks : List (Nat → ProbeOutcome)) (t : Nat) : Prop :=
  ∀ c ∈ checks, strategyReadyBy c t

/-! ## Environment oracle, events and StartContainer -/

/-- An external call attempted by the module, in order of occurrence. -/
inductive Event where
  | createEntrypointFile
  | createBootstrapFile
  | containerCreateStart
  | hostResolve
  | mappedPortResolve (port : String)
  | renderNodeConfigCall
  | copyToContainer (path : String)
  | waitUntilReady
  | newAdminAPI (url : String)
  | createUser (username : String)
deriving Repr, DecidableEq

/-- The external collaborators of the module, as an oracle: each field is
the reply the outside world gives to the corresponding call in this run. -/
structure Env where
  /-- `os.CreateTemp` + `os.WriteFile` inside `createEntrypointTmpFile`:
  the resulting temp-file name. -/
  entrypointTmpFile : Except String String
  /-- `template.New("bootstrap.yaml").Parse(bootstrapConfigTpl)`. -/
  tplParseBootstrap : Except String Unit
  /-- `tpl.Execute` on the bootstrap template: the rendered text. -/
  tplExecBootstrap : options → Except String String
  /-- `os.CreateTemp` + `os.WriteFile` inside `createBootstrapConfigFile`:
  the resulting temp-file name. -/
  bootstrapTmpFile : Except String String
  /-- `testcontainers.GenericContainer` with `Started: true`. -/
  genericContainer : ContainerRequest → Except String Unit
  /-- `container.Host(ctx)`. -/
  host : Except String String
  /-- `container.MappedPort(ctx, port)`. -/
  mappedPort : String → Except String Nat
  /-- `template.New("redpanda.yaml").Parse(nodeConfigTpl)`. -/
  tplParseNode : Except String Unit
  /-- `ncTpl.Execute` on the node-config template: the rendered text. -/
  tplExecNode : options → String → Nat → Except String String
  /-- `container.CopyToContainer(ctx, content, path, mode)`. -/
  copyToContainer : String → String → Nat → Except String Unit
  /-- `WaitUntilReady(ctx, container)` of the given wait strategy. -/
  waitUntilReady : ForAllStrategy → Except String Unit
  /-- `admin.NewAdminAPI([]string{url}, ...)`. -/
  newAdminAPI : String → Except String Unit
  /-- `adminCl.CreateUser(ctx, username, password, admin.ScramSha256)`. -/
  createUser : String → String → Except String Unit

/-- `createBootstrapConfigFile`: parse the bootstrap template, render it
with the superusers and the authorization flag, and write it to a temp
file, wrapping the template errors as the source does; temp-file I/O
errors are returned unwrapped. Returns the temp-file name. -/
def createBootstrapConfigFile (env : Env) (settings : options) : Except String String :=
  match env.tplParseBootstrap with
  | .error e => .error ("failed to parse redpanda config file template: " ++ e)
  | .ok _ =>
    match env.tplExecBootstrap settings with
    | .error e => .error ("failed to render redpanda bootstrap config template: " ++ e)
    | .ok _ =>
      match env.bootstrapTmpFile with
      | .error e => .error e
      | .ok name => .ok name

/-- `renderNodeConfig`: parse the node-config template and render it with
the advertised host/port and the authentication and authorization
settings, wrapping the two template errors as the source does. -/
def renderNodeConfig (env : Env) (settings : options) (hostIP : String)
    (advertisedKafkaPort : Nat) : Except String String :=
  match env.tplParseNode with
  | .error e => .error ("failed to parse redpanda config file template: " ++ e)
  | .ok _ =>
    match env.tplExecNode settings hostIP advertisedKafkaPort with
    | .error e => .error ("failed to render redpanda node config template: " ++ e)
    | .ok rendered => .ok rendered

/-- The sequential service-account creation loop of step 7 (`for username,
password := range settings.ServiceAccounts`): each account is created in
turn, and the first failure aborts with the offending username quoted in
the error; later accounts are not attempted. Also returns the trace of
attempted `CreateUser` calls. -/
def createServiceAccounts (env : Env) :
    List (String × String) → Except String Unit × List Event
  | [] => (.ok (), [])
  | (username, password) :: rest =>
    match env.createUser username password with
    | .error e =>
        (.error ("failed to create service account with username \"" ++ username ++
          "\": " ++ e), [Event.createUser username])
    | .ok _ =>
        ((createServiceAccounts env rest).1,
         Event.createUser username :: (createServiceAccounts env rest).2)

/-- The container handle returned on success (`Container` wraps the
runtime's handle). -/
structure Container where
deriving Repr, DecidableEq

/-- `StartContainer`: the full provisioning sequence, returning the result
and the trace of external calls attempted. Mirrors src/unnamed/part_000
lines 43-179 step by step, including each error-wrapping message. -/
def StartContainer (env : Env) (opts : List (options → options)) :
    Except String Container × List Event :=
  match env.entrypointTmpFile with
  | .error e => (.error ("failed to create entrypoint file: " ++ e),
      [Event.createEntrypointFile])
  | .ok entrypointFileName =>
  match createBootstrapConfigFile env (applyOptions opts) with
  | .error e => (.error ("failed to create bootstrap config file: " ++ e),
      [Event.createEntrypointFile, Event.createBootstrapFile])
  | .ok bootstrapFileName =>
  match env.genericContainer
      (containerReq (applyOptions opts) entrypointFileName bootstrapFileName) with
  | .error e => (.error e,
      [Event.createEntrypointFile, Event.createBootstrapFile, Event.containerCreateStart])
  | .ok _ =>
  match env.host with
  | .error e => (.error ("failed to get container host: " ++ e),
      [Event.createEntrypointFile, Event.createBootstrapFile, Event.containerCreateStart,
       Event.hostResolve])
  | .ok hostIP =>
  match env.mappedPort defaultKafkaAPIPort with
  | .error e => (.error ("failed to get mapped Kafka port: " ++ e),
      [Event.createEntrypointFile, Event.createBootstrapFile, Event.containerCreateStart,
       Event.hostResolve, Event.mappedPortResolve defaultKafkaAPIPort])
  | .ok kafkaPort =>
  match renderNodeConfig env (applyOptions opts) hostIP kafkaPort with
  | .error e => (.error ("failed to render node config: " ++ e),
      [Event.createEntrypointFile, Event.createBootstrapFile, Event.containerCreateStart,
       Event.hostResolve, Event.mappedPortResolve defaultKafkaAPIPort,
       Event.renderNodeConfigCall])
  | .ok nodeConfig =>
  match env.copyToContainer nodeConfig "/etc/redpanda/redpanda.yaml" 700 with
  | .error e => (.error ("failed to copy redpanda.yaml into container: " ++ e),
      [Event.createEntrypointFile, Event.createBootstrapFile, Event.containerCreateStart,
       Event.hostResolve, Event.mappedPortResolve defaultKafkaAPIPort,
       Event.renderNodeConfigCall, Event.copyToContainer "/etc/redpanda/redpanda.yaml"])
  | .ok _ =>
  match env.waitUntilReady redpandaWaitStrategy with
  | .error e => (.error ("failed to wait for Redpanda readiness: " ++ e),
      [Event.createEntrypointFile, Event.createBootstrapFile, Event.containerCreateStart,
       Event.hostResolve, Event.mappedPortResolve defaultKafkaAPIPort,
       Event.renderNodeConfigCall, Event.copyToContainer "/etc/redpanda/redpanda.yaml",
       Event.waitUntilReady])
  | .ok _ =>
  if (applyOptions opts).ServiceAccounts.length > 0 then
    match env.mappedPort defaultAdminAPIPort with
    | .error e => (.error ("failed to get mapped Admin API port: " ++ e),
        [Event.createEntrypointFile, Event.createBootstrapFile, Event.containerCreateStart,
         Event.hostResolve, Event.mappedPortResolve defaultKafkaAPIPort,
         Event.renderNodeConfigCall, Event.copyToContainer "/etc/redpanda/redpanda.yaml",
         Event.waitUntilReady, Event.mappedPortResolve defaultAdminAPIPort])
    | .ok adminAPIPort =>
    match env.newAdminAPI ("http://" ++ hostIP ++ ":" ++ toString adminAPIPort) with
    | .error e => (.error ("failed to create new admin api client: " ++ e),
        [Event.createEntrypointFile, Event.createBootstrapFile, Event.containerCreateStart,
         Event.hostResolve, Event.mappedPortResolve defaultKafkaAPIPort,
         Event.renderNodeConfigCall, Event.copyToContainer "/etc/redpanda/redpanda.yaml",
         Event.waitUntilReady, Event.mappedPortResolve defaultAdminAPIPort,
         Event.newAdminAPI ("http://" ++ hostIP ++ ":" ++ toString adminAPIPort)])
    | .ok _ =>
      (((createServiceAccounts env (applyOptions opts).ServiceAccounts).1.map
          fun _ => Container.mk),
        [Event.createEntrypointFile, Event.createBootstrapFile, Event.containerCreateStart,
         Event.hostResolve, Event.mappedPortResolve defaultKafkaAPIPort,
         Event.renderNodeConfigCall, Event.copyToContainer "/etc/redpanda/redpanda.yaml",
         Event.waitUntilReady, Event.mappedPortResolve defaultAdminAPIPort,
         Event.newAdminAPI ("http://" ++ hostIP ++ ":" ++ toString adminAPIPort)] ++
        (createServiceAccounts env (applyOptions opts).ServiceAccounts).2)
  else
    (.ok Container.mk,
      [Event.createEntrypointFile, Event.createBootstrapFile, Event.containerCreateStart,
       Event.hostResolve, Event.mappedPortResolve defaultKafkaAPIPort,
       Event.renderNodeConfigCall, Event.copyToContainer "/etc/redpanda/redpanda.yaml",
       Event.waitUntilReady])

/-! ## Endpoint accessors (src/unnamed/part_000 lines 184-223) -/

/-- The handle-facing part of the environment used by the accessors. -/
structure AccessorEnv where
  host : Except String String
  mappedPort : String → Except String Nat

/-- `getMappedHostPort`: resolve the container host, then the mapped port,
and format "host:port"; each resolution failure is wrapped. Also returns
the trace of resolutions attempted by this call. -/
def getMappedHostPort (c : AccessorEnv) (port : String) :
    Except String String × List Event :=
  match c.host with
  | .error e => (.error ("failed to get hostIP: " ++ e), [Event.hostResolve])
  | .ok hostIP =>
    match c.mappedPort port with
    | .error e => (.error ("failed to get mapped port: " ++ e),
        [Event.hostResolve, Event.mappedPortResolve port])
    | .ok mappedPort => (.ok (hostIP ++ ":" ++ toString mappedPort),
        [Event.hostResolve, Event.mappedPortResolve port])

/-- `KafkaSeedBroker`: the mapped host:port of the Kafka API port. -/
def KafkaSeedBroker (c : AccessorEnv) : Except String String × List Event :=
  getMappedHostPort c defaultKafkaAPIPort

/-- `AdminAPIAddress`: "http://" prefixed to the mapped host:port of the
admin API port; a resolution error is returned unchanged. -/
def AdminAPIAddress (c : AccessorEnv) : Except String String × List Event :=
  match getMappedHostPort c defaultAdminAPIPort with
  | (.error e, tr) => (.error e, tr)
  | (.ok hostPort, tr) => (.ok ("http://" ++ hostPort), tr)

/-- `SchemaRegistryAddress`: "http://" prefixed to the mapped host:port of
the schema registry port; a resolution error is returned unchanged. -/
def SchemaRegistryAddress (c : AccessorEnv) : Except String String × List Event :=
  match getMappedHostPort c defaultSchemaRegistryPort with
  | (.error e, tr) => (.error e, tr)
  | (.ok hostPort, tr) => (.ok ("http://" ++ hostPort), tr)

/-! ## Concrete environments used to exercise the model -/

/-- Extracts the username of a `CreateUser` call from an event. -/
def userEvent : Event → Option String
  | Event.createUser username => some username
  | _ => none

/-- An environment in which every external call succeeds, with the port
mappings 9092→55001, 9644→55002, 8081→55003. -/
def happyEnv : Env :=
  { entrypointTmpFile := .ok "/tmp/entrypoint"
    tplParseBootstrap := .ok ()
    tplExecBootstrap := fun _ => .ok "rendered bootstrap"
    bootstrapTmpFile := .ok "/tmp/bootstrap"
    genericContainer := fun _ => .ok ()
    host := .ok "localhost"
    mappedPort := fun port =>
      if port = defaultKafkaAPIPort then .ok 55001
      else if port = defaultAdminAPIPort then .ok 55002
      else .ok 55003
    tplParseNode := .ok ()
    tplExecNode := fun _ _ _ => .ok "rendered node config"
    copyToContainer := fun _ _ _ => .ok ()
    waitUntilReady := fun _ => .ok ()
    newAdminAPI := fun _ => .ok ()
    createUser := fun _ _ => .ok () }

/-- `happyEnv`, except that container creation/start fails. -/
def envCreateStartFails : Env :=
  { happyEnv with genericContainer := fun _ => .error "container runtime exploded" }

/-- `happyEnv`, except that host resolution fails. -/
def envHostFails : Env :=
  { happyEnv with host := .error "no host" }

/-- `happyEnv`, except that copying the node config into the container fails. -/
def envCopyFails : Env :=
  { happyEnv with copyToContainer := fun _ _ _ => .error "copy refused" }

/-- `happyEnv`, except that creating the service account "bob" fails. -/
def envBobFails : Env :=
  { happyEnv with createUser := fun username _ =>
      if username = "bob" then .error "boom" else .ok () }

/-- Three service accounts, of which the second is "bob". -/
def threeAccountOpts : List (options → options) :=
  [WithNewServiceAccount "alice" "pa", WithNewServiceAccount "bob" "pb",
   WithNewServiceAccount "carol" "pc"]

/-- An accessor environment whose resolutions all succeed, with the port
mappings 9092→55001, 9644→55002, 8081→55003. -/
def happyAccessor : AccessorEnv :=
  { host := .ok "localhost"
    mappedPort := fun port =>
      if port = defaultKafkaAPIPort then .ok 55001
      else if port = defaultAdminAPIPort then .ok 55002
      else .ok 55003 }

/-- An accessor environment whose host resolution fails. -/
def accessorHostFails : AccessorEnv :=
  { host := .error "gone", mappedPort := fun _ => .ok 55001 }

/-- An accessor environment whose port resolution fails. -/
def accessorPortFails : AccessorEnv :=
  { host := .ok "localhost", mappedPort := fun _ => .error "not mapped" }

/-! ## Helper lemmas on the Go-map model -/

theorem mapLookup_mapInsert_self (m : List (String × String)) (k v : String) :
    mapLookup (mapInsert m k v) k = some v := by
  induction m with
  | nil => simp [mapInsert, mapLookup]
  | cons hd tl ih =>
    obtain ⟨k', v'⟩ := hd
    by_cases h : k' = k
    · simp [mapInsert, mapLookup, h]
    · simp [mapInsert, mapLookup, h, ih]

theorem mapLookup_mapInsert_ne (m : List (String × String)) (k v k' : String)
    (h : k' ≠ k) : mapLookup (mapInsert m k v) k' = mapLookup m k' := by
  induction m with
  | nil => simp [mapInsert, mapLookup, Ne.symm h]
  | cons hd tl ih =>
    obtain ⟨a, b⟩ := hd
    by_cases ha : a = k
    · subst ha
      simp [mapInsert, mapLookup, Ne.symm h]
    · simp [mapInsert, mapLookup, ha, ih]

theorem mapInsert_mapInsert_same (m : List (String × String)) (k v v' : String) :
    mapInsert (mapInsert m k v) k v' = mapInsert m k v' := by
  induction m with
  | nil => simp [mapInsert]
  | cons hd tl ih =>
    obtain ⟨a, b⟩ := hd
    by_cases ha : a = k
    · simp [mapInsert, ha]
    · simp [mapInsert, ha, ih]

/-! ## Helper lemmas on the readiness model -/

theorem responseMatcher_eq_true (jsonUnmarshal : String → Option ClusterHealthOverview)
    (body : BodyRead) :
    responseMatcher jsonUnmarshal body = true ↔
    ∃ contents health, body = BodyRead.ok contents ∧
      jsonUnmarshal contents = some health ∧ health.IsHealthy = true := by
  cases body with
  | readFailed => simp [responseMatcher]
  | ok contents =>
    cases hj : jsonUnmarshal contents with
    | none => simp [responseMatcher, hj]
    | some health => simp [responseMatcher, hj]

theorem logPollOutcome_ready (markerSeen : Nat → Bool) (n : Nat) :
    logPollOutcome markerSeen n = ProbeOutcome.ready ↔ markerSeen n = true := by
  cases h : markerSeen n <;> simp [logPollOutcome, h]

theorem httpPollOutcome_ready (jsonUnmarshal : String → Option ClusterHealthOverview)
    (response : Option BodyRead) :
    httpPollOutcome jsonUnmarshal response = ProbeOutcome.ready ↔
    ∃ body, response = some body ∧ responseMatcher jsonUnmarshal body = true := by
  cases response with
  | none => simp [httpPollOutcome]
  | some body =>
    cases h : responseMatcher jsonUnmarshal body <;> simp [httpPollOutcome, h]

/-! ## Helper lemma on the account-creation loop -/

theorem createServiceAccounts_failfast (env : Env) (pre post : List (String × String))
    (u p e : String)
    (hpre : ∀ x ∈ pre, env.createUser x.1 x.2 = .ok ())
    (hu : env.createUser u p = .error e) :
    (createServiceAccounts env (pre ++ (u, p) :: post)).1 =
      .error ("failed to create service account with username \"" ++ u ++ "\": " ++ e) ∧
    (createServiceAccounts env (pre ++ (u, p) :: post)).2.filterMap userEvent =
      pre.map Prod.fst ++ [u] := by
  induction pre with
  | nil => simp [createServiceAccounts, hu, userEvent]
  | cons hd tl ih =>
    obtain ⟨a, b⟩ := hd
    have hab : env.createUser a b = .ok () := hpre (a, b) (by simp)
    have ih' := ih fun x hx => hpre x (by simp [hx])
    simp [createServiceAccounts, hab, userEvent, ih'.1, ih'.2]

/-! ## Claim theorems -/

/-- C7: applying `WithSuperusers` twice with different lists leaves only the
second list in effect — for every options value and lists A and B, applying
`WithSuperusers A` then `WithSuperusers B` yields `Superusers = B` (the list
is replaced, not appended). -/
theorem withSuperusers_last_write_wins (o : options) (A B : List String) :
    (WithSuperusers B (WithSuperusers A o)).Superusers = B := rfl

/-- C8: `WithEnableSASL` sets `KafkaAuthenticationMethod` to "sasl" and
leaves every other field of the options value unchanged, in particular the
authorization flag, the superuser list, the schema-registry authentication
method, the service-account map and the image. -/
theorem withEnableSASL_frame (o : options) :
    (WithEnableSASL o).KafkaAuthenticationMethod = "sasl" ∧
    (WithEnableSASL o).KafkaEnableAuthorization = o.KafkaEnableAuthorization ∧
    (WithEnableSASL o).Superusers = o.Superusers ∧
    (WithEnableSASL o).SchemaRegistryAuthenticationMethod =
      o.SchemaRegistryAuthenticationMethod ∧
    (WithEnableSASL o).ServiceAccounts = o.ServiceAccounts ∧
    (WithEnableSASL o).Image = o.Image :=
  ⟨rfl, rfl, rfl, rfl, rfl, rfl⟩

/-- C9: contrary to the claim, `WithEnableSchemaRegistryHTTPBasicAuth` as
coded never modifies the options value — its first return statement returns
a closure over the container request (whose body is itself a syntax error),
and the closure that would set the schema-registry authentication method to
"http_basic" is unreachable. Applied to the defaults, the field stays
"none"; the spec-intended behavior would set "http_basic". -/
theorem withEnableSchemaRegistryHTTPBasicAuth_code_bug :
    (∀ o : options, WithEnableSchemaRegistryHTTPBasicAuth_asCoded o = o) ∧
    (WithEnableSchemaRegistryHTTPBasicAuth_asCoded
      defaultOptions).SchemaRegistryAuthenticationMethod = "none" ∧
    "none" ≠ "http_basic" ∧
    (WithEnableSchemaRegistryHTTPBasicAuth_spec
      defaultOptions).SchemaRegistryAuthenticationMethod = "http_basic" :=
  ⟨fun _ => rfl, rfl, by decide, rfl⟩

/-- C6: the container creation request has user "root:root", exactly the
three exposed ports 9092/tcp, 9644/tcp and 8081/tcp, an empty entrypoint,
the command ["/entrypoint-tc.sh", "redpanda", "start", "--mode=dev-container"],
and exactly the two injected files /entrypoint-tc.sh and
/etc/redpanda/.bootstrap.yaml — but their file mode is the decimal literal
700 (= 0o1274), not the octal 0700 the claim states. -/
theorem containerReq_fields (settings : options) (en bn : String) :
    (containerReq settings en bn).User = "root:root" ∧
    (containerReq settings en bn).Image = settings.Image ∧
    (containerReq settings en bn).ExposedPorts = ["9092/tcp", "9644/tcp", "8081/tcp"] ∧
    (containerReq settings en bn).Entrypoint = [] ∧
    (containerReq settings en bn).Cmd =
      ["/entrypoint-tc.sh", "redpanda", "start", "--mode=dev-container"] ∧
    (containerReq settings en bn).Files.map (fun f => f.ContainerFilePath) =
      ["/entrypoint-tc.sh", "/etc/redpanda/.bootstrap.yaml"] ∧
    (containerReq settings en bn).Files.map (fun f => f.HostFilePath) = [en, bn] ∧
    (containerReq settings en bn).Files.map (fun f => f.FileMode) = [700, 700] ∧
    (700 : Nat) ≠ 0o700 := by
  refine ⟨rfl, rfl, rfl, rfl, rfl, rfl, rfl, rfl, by decide⟩

/-- C10: `applyOptions []` (the settings `StartContainer` computes when
given zero options) is exactly `defaultOptions`, whose fields are the
claimed defaults; and `WithNewServiceAccount` accumulates entries across
calls, a repeated username overwriting only that username's password. -/
theorem defaults_and_newServiceAccount :
    applyOptions [] = defaultOptions ∧
    defaultOptions.KafkaAuthenticationMethod = "none" ∧
    defaultOptions.SchemaRegistryAuthenticationMethod = "none" ∧
    defaultOptions.KafkaEnableAuthorization = false ∧
    defaultOptions.Superusers = [] ∧
    defaultOptions.ServiceAccounts = [] ∧
    defaultOptions.Image = "docker.redpanda.com/redpandadata/redpanda:v23.1.6" ∧
    (∀ (o : options) (u p v q : String), u ≠ v →
      mapLookup (WithNewServiceAccount v q
        (WithNewServiceAccount u p o)).ServiceAccounts u = some p ∧
      mapLookup (WithNewServiceAccount v q
        (WithNewServiceAccount u p o)).ServiceAccounts v = some q) ∧
    (∀ (o : options) (u p p' : String),
      (WithNewServiceAccount u p' (WithNewServiceAccount u p o)).ServiceAccounts =
        (WithNewServiceAccount u p' o).ServiceAccounts ∧
      ∀ v, v ≠ u →
        mapLookup (WithNewServiceAccount u p'
          (WithNewServiceAccount u p o)).ServiceAccounts v =
        mapLookup o.ServiceAccounts v) := by
  refine ⟨rfl, rfl, rfl, rfl, rfl, rfl, rfl, ?_, ?_⟩
  · intro o u p v q huv
    constructor
    · rw [WithNewServiceAccount, WithNewServiceAccount]
      exact (mapLookup_mapInsert_ne _ _ _ _ huv).trans
        (mapLookup_mapInsert_self _ _ _)
    · rw [WithNewServiceAccount, WithNewServiceAccount]
      exact mapLookup_mapInsert_self _ _ _
  · intro o u p p'
    constructor
    · rw [WithNewServiceAccount, WithNewServiceAccount, WithNewServiceAccount]
      exact congrArg (fun m => options.ServiceAccounts { o with ServiceAccounts := m })
        (mapInsert_mapInsert_same _ _ _ _)
    · intro v hv
      rw [WithNewServiceAccount, WithNewServiceAccount]
      exact (mapLookup_mapInsert_ne _ _ _ _ hv).trans
        (mapLookup_mapInsert_ne _ _ _ _ hv)

/-- C2: the readiness wait of StartContainer is the composite of a log
check for the literal "Successfully started Redpanda!" and an HTTP check of
/v1/cluster/health_overview on the 9644/tcp admin port, each on a 100ms
poll interval; the composite succeeds exactly when both checks
individually succeed; a poll's response is accepted exactly when its body
reads, unmarshals as a cluster-health overview and that overview's healthy
flag is true, and an unreadable or unparsable body makes the attempt retry
rather than fail fatally. -/
theorem startContainer_readiness (jsonUnmarshal : String → Option ClusterHealthOverview)
    (markerSeen : Nat → Bool) (responses : Nat → Option BodyRead) (t : Nat) :
    redpandaWaitStrategy.forLog.log = "Successfully started Redpanda!" ∧
    redpandaWaitStrategy.forLog.pollIntervalMs = 100 ∧
    redpandaWaitStrategy.forHTTP.path = "/v1/cluster/health_overview" ∧
    redpandaWaitStrategy.forHTTP.port = defaultAdminAPIPort ∧
    defaultAdminAPIPort = "9644/tcp" ∧
    redpandaWaitStrategy.forHTTP.pollIntervalMs = 100 ∧
    (∀ body, responseMatcher jsonUnmarshal body = true ↔
      ∃ contents health, body = BodyRead.ok contents ∧
        jsonUnmarshal contents = some health ∧ health.IsHealthy = true) ∧
    (∀ response, httpPollOutcome jsonUnmarshal response ≠ ProbeOutcome.fatal) ∧
    httpPollOutcome jsonUnmarshal (some BodyRead.readFailed) = ProbeOutcome.retry ∧
    (∀ contents, jsonUnmarshal contents = none →
      httpPollOutcome jsonUnmarshal (some (BodyRead.ok contents)) = ProbeOutcome.retry) ∧
    (forAllReadyBy
        [logPollOutcome markerSeen, fun n => httpPollOutcome jsonUnmarshal (responses n)]
        t ↔
      ((∃ n, n ≤ t ∧ markerSeen n = true) ∧
       (∃ n, n ≤ t ∧ ∃ contents health, responses n = some (BodyRead.ok contents) ∧
          jsonUnmarshal contents = some health ∧ health.IsHealthy = true))) := by
  refine ⟨rfl, rfl, rfl, rfl, rfl, rfl, responseMatcher_eq_true jsonUnmarshal, ?_, rfl,
    ?_, ?_⟩
  · intro response
    cases response with
    | none => simp [httpPollOutcome]
    | some body =>
      cases h : responseMatcher jsonUnmarshal body <;> simp [httpPollOutcome, h]
  · intro contents hc
    simp [httpPollOutcome, responseMatcher, hc]
  · rw [forAllReadyBy]
    simp only [List.mem_cons, List.mem_singleton, forall_eq_or_imp, forall_eq,
      List.not_mem_nil, false_implies, implies_true, and_true, strategyReadyBy,
      logPollOutcome_ready, httpPollOutcome_ready, responseMatcher_eq_true]
    constructor
    · rintro ⟨⟨n, hn, hm⟩, ⟨m, hmle, body, hb, contents, health, hbc, hju, hh⟩⟩
      exact ⟨⟨n, hn, hm⟩, ⟨m, hmle, contents, health, hbc ▸ hb, hju, hh⟩⟩
    · rintro ⟨⟨n, hn, hm⟩, ⟨m, hmle, contents, health, hr, hju, hh⟩⟩
      exact ⟨⟨n, hn, hm⟩, ⟨m, hmle, BodyRead.ok contents, hr, contents, health, rfl,
        hju, hh⟩⟩

/-- C2 witness: a body that does not unmarshal makes the HTTP poll attempt
retry. -/
theorem startContainer_readiness_witness :
    httpPollOutcome (fun _ => none) (some (BodyRead.ok "garbage")) =
      ProbeOutcome.retry :=
  (startContainer_readiness (fun _ => none) (fun _ => false) (fun _ => none)
    0).2.2.2.2.2.2.2.2.2.1 "garbage" rfl

/-- C4: when host and mapped ports resolve, KafkaSeedBroker returns the
bare "host:port" for the 9092/tcp mapping, AdminAPIAddress returns
"http://host:port" for the 9644/tcp mapping and SchemaRegistryAddress
returns "http://host:port" for the 8081/tcp mapping, all with the same
resolved host; each call performs its own host and port resolution (its
call trace is exactly one host resolution followed by one mapped-port
resolution), and a failed host or port resolution yields an error. -/
theorem endpoint_accessors :
    (∀ (c : AccessorEnv) (h : String) (kp ap sp : Nat),
      c.host = .ok h →
      c.mappedPort defaultKafkaAPIPort = .ok kp →
      c.mappedPort defaultAdminAPIPort = .ok ap →
      c.mappedPort defaultSchemaRegistryPort = .ok sp →
      KafkaSeedBroker c = (.ok (h ++ ":" ++ toString kp),
        [Event.hostResolve, Event.mappedPortResolve "9092/tcp"]) ∧
      AdminAPIAddress c = (.ok ("http://" ++ (h ++ ":" ++ toString ap)),
        [Event.hostResolve, Event.mappedPortResolve "9644/tcp"]) ∧
      SchemaRegistryAddress c = (.ok ("http://" ++ (h ++ ":" ++ toString sp)),
        [Event.hostResolve, Event.mappedPortResolve "8081/tcp"])) ∧
    (∀ (c : AccessorEnv) (e : String), c.host = .error e →
      (KafkaSeedBroker c).1 = .error ("failed to get hostIP: " ++ e) ∧
      (AdminAPIAddress c).1 = .error ("failed to get hostIP: " ++ e) ∧
      (SchemaRegistryAddress c).1 = .error ("failed to get hostIP: " ++ e)) ∧
    (∀ (c : AccessorEnv) (h e : String), c.host = .ok h →
      (c.mappedPort defaultKafkaAPIPort = .error e →
        (KafkaSeedBroker c).1 = .error ("failed to get mapped port: " ++ e)) ∧
      (c.mappedPort defaultAdminAPIPort = .error e →
        (AdminAPIAddress c).1 = .error ("failed to get mapped port: " ++ e)) ∧
      (c.mappedPort defaultSchemaRegistryPort = .error e →
        (SchemaRegistryAddress c).1 = .error ("failed to get mapped port: " ++ e))) := by
  refine ⟨?_, ?_, ?_⟩
  · intro c h kp ap sp hh hk ha hs
    simp only [defaultKafkaAPIPort, defaultAdminAPIPort, defaultSchemaRegistryPort]
      at hk ha hs
    refine ⟨?_, ?_, ?_⟩
    · simp [KafkaSeedBroker, getMappedHostPort, defaultKafkaAPIPort, hh, hk]
    · simp [AdminAPIAddress, getMappedHostPort, defaultAdminAPIPort, hh, ha]
    · simp [SchemaRegistryAddress, getMappedHostPort, defaultSchemaRegistryPort, hh, hs]
  · intro c e he
    refine ⟨?_, ?_, ?_⟩
    · simp [KafkaSeedBroker, getMappedHostPort, he]
    · simp [AdminAPIAddress, getMappedHostPort, he]
    · simp [SchemaRegistryAddress, getMappedHostPort, he]
  · intro c h e hh
    refine ⟨fun hk => ?_, fun ha => ?_, fun hs => ?_⟩
    · simp only [defaultKafkaAPIPort] at hk
      simp [KafkaSeedBroker, getMappedHostPort, defaultKafkaAPIPort, hh, hk]
    · simp only [defaultAdminAPIPort] at ha
      simp [AdminAPIAddress, getMappedHostPort, defaultAdminAPIPort, hh, ha]
    · simp only [defaultSchemaRegistryPort] at hs
      simp [SchemaRegistryAddress, getMappedHostPort, defaultSchemaRegistryPort, hh, hs]

/-- C4 witness: against the mappings 9092→55001, 9644→55002, 8081→55003 on
host "localhost", the three accessors give "localhost:55001",
"http://localhost:55002" and "http://localhost:55003", and failed
resolutions give errors. -/
theorem endpoint_accessors_witness :
    KafkaSeedBroker happyAccessor = (.ok ("localhost" ++ ":" ++ toString 55001),
      [Event.hostResolve, Event.mappedPortResolve "9092/tcp"]) ∧
    AdminAPIAddress happyAccessor =
      (.ok ("http://" ++ ("localhost" ++ ":" ++ toString 55002)),
      [Event.hostResolve, Event.mappedPortResolve "9644/tcp"]) ∧
    SchemaRegistryAddress happyAccessor =
      (.ok ("http://" ++ ("localhost" ++ ":" ++ toString 55003)),
      [Event.hostResolve, Event.mappedPortResolve "8081/tcp"]) ∧
    (KafkaSeedBroker accessorHostFails).1 = .error ("failed to get hostIP: " ++ "gone") ∧
    (AdminAPIAddress accessorPortFails).1 =
      .error ("failed to get mapped port: " ++ "not mapped") :=
  ⟨(endpoint_accessors.1 happyAccessor "localhost" 55001 55002 55003
      rfl rfl rfl rfl).1,
   (endpoint_accessors.1 happyAccessor "localhost" 55001 55002 55003
      rfl rfl rfl rfl).2.1,
   (endpoint_accessors.1 happyAccessor "localhost" 55001 55002 55003
      rfl rfl rfl rfl).2.2,
   (endpoint_accessors.2.1 accessorHostFails "gone" rfl).1,
   (endpoint_accessors.2.2 accessorPortFails "localhost" "not mapped" rfl).2.1
     rfl⟩

/-- C1: on any execution in which the node config is rendered or copied
into the container, the container was created and started, the host was
resolved, and the Kafka 9092/tcp mapped port was resolved, all
successfully and strictly before the rendering event: the call trace
begins with exactly the prefix [create entrypoint file, create bootstrap
file, container create+start, host resolve, mapped-port resolve 9092/tcp,
render node config]. -/
theorem render_after_port_known (env : Env) (opts : List (options → options))
    (hmem : Event.renderNodeConfigCall ∈ (StartContainer env opts).2 ∨
      Event.copyToContainer "/etc/redpanda/redpanda.yaml" ∈ (StartContainer env opts).2) :
    (∃ hostIP, env.host = .ok hostIP) ∧
    (∃ kp, env.mappedPort defaultKafkaAPIPort = .ok kp) ∧
    (∃ en bn, env.entrypointTmpFile = .ok en ∧
      createBootstrapConfigFile env (applyOptions opts) = .ok bn ∧
      env.genericContainer (containerReq (applyOptions opts) en bn) = .ok ()) ∧
    (∃ rest, (StartContainer env opts).2 =
      [Event.createEntrypointFile, Event.createBootstrapFile, Event.containerCreateStart,
       Event.hostResolve, Event.mappedPortResolve defaultKafkaAPIPort,
       Event.renderNodeConfigCall] ++ rest) := by
  simp only [StartContainer] at hmem ⊢
  cases h1 : env.entrypointTmpFile with
  | error e1 =>
    simp only [h1] at hmem
    simp at hmem
  | ok en =>
  simp only [h1] at hmem ⊢
  cases h2 : createBootstrapConfigFile env (applyOptions opts) with
  | error e2 =>
    simp only [h2] at hmem
    simp at hmem
  | ok bn =>
  simp only [h2] at hmem ⊢
  cases h3 : env.genericContainer (containerReq (applyOptions opts) en bn) with
  | error e3 =>
    simp only [h3] at hmem
    simp at hmem
  | ok u3 =>
  simp only [h3] at hmem ⊢
  cases h4 : env.host with
  | error e4 =>
    simp only [h4] at hmem
    simp at hmem
  | ok hostIP =>
  simp only [h4] at hmem ⊢
  cases h5 : env.mappedPort defaultKafkaAPIPort with
  | error e5 =>
    simp only [h5] at hmem
    simp at hmem
  | ok kp =>
  simp only [h5] at hmem ⊢
  obtain ⟨⟩ := u3
  refine ⟨⟨hostIP, rfl⟩, ⟨kp, rfl⟩, ⟨en, bn, rfl, rfl, h3⟩, ?_⟩
  cases h6 : renderNodeConfig env (applyOptions opts) hostIP kp with
  | error e6 =>
    simp only [h6]
    exact ⟨[], by simp⟩
  | ok nodeConfig =>
  simp only [h6]
  cases h7 : env.copyToContainer nodeConfig "/etc/redpanda/redpanda.yaml" 700 with
  | error e7 =>
    simp only [h7]
    exact ⟨[Event.copyToContainer "/etc/redpanda/redpanda.yaml"], by simp⟩
  | ok u7 =>
  simp only [h7]
  cases h8 : env.waitUntilReady redpandaWaitStrategy with
  | error e8 =>
    simp only [h8]
    exact ⟨[Event.copyToContainer "/etc/redpanda/redpanda.yaml", Event.waitUntilReady],
      by simp⟩
  | ok u8 =>
  simp only [h8]
  by_cases hsa : (applyOptions opts).ServiceAccounts.length > 0
  · rw [if_pos hsa]
    cases h9 : env.mappedPort defaultAdminAPIPort with
    | error e9 =>
      simp only [h9]
      exact ⟨[Event.copyToContainer "/etc/redpanda/redpanda.yaml", Event.waitUntilReady,
        Event.mappedPortResolve defaultAdminAPIPort], by simp⟩
    | ok ap =>
    simp only [h9]
    cases h10 : env.newAdminAPI ("http://" ++ hostIP ++ ":" ++ toString ap) with
    | error e10 =>
      simp only [h10]
      exact ⟨[Event.copyToContainer "/etc/redpanda/redpanda.yaml", Event.waitUntilReady,
        Event.mappedPortResolve defaultAdminAPIPort,
        Event.newAdminAPI ("http://" ++ hostIP ++ ":" ++ toString ap)], by simp⟩
    | ok u10 =>
      simp only [h10]
      exact ⟨[Event.copyToContainer "/etc/redpanda/redpanda.yaml", Event.waitUntilReady,
        Event.mappedPortResolve defaultAdminAPIPort,
        Event.newAdminAPI ("http://" ++ hostIP ++ ":" ++ toString ap)] ++
        (createServiceAccounts env (applyOptions opts).ServiceAccounts).2, by simp⟩
  · rw [if_neg hsa]
    exact ⟨[Event.copyToContainer "/etc/redpanda/redpanda.yaml", Event.waitUntilReady],
      by simp⟩

/-- C1 witness: in the all-successful environment the trace does begin with
that prefix. -/
theorem render_after_port_known_witness :
    ∃ rest, (StartContainer happyEnv []).2 =
      [Event.createEntrypointFile, Event.createBootstrapFile, Event.containerCreateStart,
       Event.hostResolve, Event.mappedPortResolve defaultKafkaAPIPort,
       Event.renderNodeConfigCall] ++ rest :=
  (render_after_port_known happyEnv [] (Or.inl (by decide))).2.2.2

/-- C3: when the account map has entries and creating one account fails,
StartContainer returns an error quoting the offending username, no
container handle, and the attempted CreateUser calls are exactly the
successful earlier accounts followed by the failing one — none after it;
and when the account map is empty, the admin-API mapped-port resolution
and the admin-client construction are never attempted. -/
theorem startContainer_service_accounts :
    (∀ (env : Env) (opts : List (options → options)) (en bn hostIP : String)
      (kp ap : Nat) (nodeConfig : String) (pre post : List (String × String))
      (u p e : String),
      env.entrypointTmpFile = .ok en →
      createBootstrapConfigFile env (applyOptions opts) = .ok bn →
      env.genericContainer (containerReq (applyOptions opts) en bn) = .ok () →
      env.host = .ok hostIP →
      env.mappedPort defaultKafkaAPIPort = .ok kp →
      renderNodeConfig env (applyOptions opts) hostIP kp = .ok nodeConfig →
      env.copyToContainer nodeConfig "/etc/redpanda/redpanda.yaml" 700 = .ok () →
      env.waitUntilReady redpandaWaitStrategy = .ok () →
      env.mappedPort defaultAdminAPIPort = .ok ap →
      env.newAdminAPI ("http://" ++ hostIP ++ ":" ++ toString ap) = .ok () →
      (applyOptions opts).ServiceAccounts = pre ++ (u, p) :: post →
      (∀ x ∈ pre, env.createUser x.1 x.2 = .ok ()) →
      env.createUser u p = .error e →
      (StartContainer env opts).1 =
        .error ("failed to create service account with username \"" ++ u ++
          "\": " ++ e) ∧
      (StartContainer env opts).2.filterMap userEvent = pre.map Prod.fst ++ [u]) ∧
    (∀ (env : Env) (opts : List (options → options)),
      (applyOptions opts).ServiceAccounts = [] →
      Event.mappedPortResolve defaultAdminAPIPort ∉ (StartContainer env opts).2 ∧
      ∀ url, Event.newAdminAPI url ∉ (StartContainer env opts).2) := by
  constructor
  · intro env opts en bn hostIP kp ap nodeConfig pre post u p e
      h1 h2 h3 h4 h5 h6 h7 h8 h9 h10 hacc hpre hu
    have hlen : (applyOptions opts).ServiceAccounts.length > 0 := by rw [hacc]; simp
    have hcsa := createServiceAccounts_failfast env pre post u p e hpre hu
    simp only [StartContainer, h1, h2, h3, h4, h5, h6, h7, h8]
    rw [if_pos hlen]
    simp only [h9, h10]
    rw [hacc]
    simp [hcsa.1, hcsa.2, List.filterMap_append, userEvent, Except.map]
  · intro env opts hsa
    have key : ∀ ev, ev ∈ (StartContainer env opts).2 →
        ev = Event.createEntrypointFile ∨ ev = Event.createBootstrapFile ∨
        ev = Event.containerCreateStart ∨ ev = Event.hostResolve ∨
        ev = Event.mappedPortResolve defaultKafkaAPIPort ∨
        ev = Event.renderNodeConfigCall ∨
        ev = Event.copyToContainer "/etc/redpanda/redpanda.yaml" ∨
        ev = Event.waitUntilReady := by
      intro ev hev
      simp only [StartContainer] at hev
      cases h1 : env.entrypointTmpFile with
      | error e1 => simp only [h1] at hev; simp at hev; tauto
      | ok en =>
      simp only [h1] at hev
      cases h2 : createBootstrapConfigFile env (applyOptions opts) with
      | error e2 => simp only [h2] at hev; simp at hev; tauto
      | ok bn =>
      simp only [h2] at hev
      cases h3 : env.genericContainer (containerReq (applyOptions opts) en bn) with
      | error e3 => simp only [h3] at hev; simp at hev; tauto
      | ok u3 =>
      simp only [h3] at hev
      cases h4 : env.host with
      | error e4 => simp only [h4] at hev; simp at hev; tauto
      | ok hostIP =>
      simp only [h4] at hev
      cases h5 : env.mappedPort defaultKafkaAPIPort with
      | error e5 => simp only [h5] at hev; simp at hev; tauto
      | ok kp =>
      simp only [h5] at hev
      cases h6 : renderNodeConfig env (applyOptions opts) hostIP kp with
      | error e6 => simp only [h6] at hev; simp at hev; tauto
      | ok nodeConfig =>
      simp only [h6] at hev
      cases h7 : env.copyToContainer nodeConfig "/etc/redpanda/redpanda.yaml" 700 with
      | error e7 => simp only [h7] at hev; simp at hev; tauto
      | ok u7 =>
      simp only [h7] at hev
      cases h8 : env.waitUntilReady redpandaWaitStrategy with
      | error e8 => simp only [h8] at hev; simp at hev; tauto
      | ok u8 =>
      simp only [h8, hsa] at hev
      simp at hev
      tauto
    refine ⟨fun hmem => ?_, fun url hmem => ?_⟩
    · rcases key _ hmem with h | h | h | h | h | h | h | h <;>
        simp [defaultAdminAPIPort, defaultKafkaAPIPort] at h
    · rcases key _ hmem with h | h | h | h | h | h | h | h <;> simp at h

/-- C3 witness: with accounts alice, bob, carol and an admin API that
rejects bob, provisioning fails with bob's username quoted, alice alone was
attempted before bob and carol was never attempted; with no accounts, the
admin port is never resolved. -/
theorem startContainer_service_accounts_witness :
    (StartContainer envBobFails threeAccountOpts).1 =
      .error ("failed to create service account with username \"" ++ "bob" ++
        "\": " ++ "boom") ∧
    (StartContainer envBobFails threeAccountOpts).2.filterMap userEvent =
      [("alice", "pa")].map Prod.fst ++ ["bob"] ∧
    Event.mappedPortResolve defaultAdminAPIPort ∉ (StartContainer happyEnv []).2 :=
  ⟨(startContainer_service_accounts.1 envBobFails threeAccountOpts
      "/tmp/entrypoint" "/tmp/bootstrap" "localhost" 55001 55002
      "rendered node config" [("alice", "pa")] [("carol", "pc")] "bob" "pb" "boom"
      rfl rfl rfl rfl rfl rfl rfl rfl rfl rfl rfl
      (by intro x hx; rw [List.mem_singleton] at hx; subst hx; rfl) rfl).1,
   (startContainer_service_accounts.1 envBobFails threeAccountOpts
      "/tmp/entrypoint" "/tmp/bootstrap" "localhost" 55001 55002
      "rendered node config" [("alice", "pa")] [("carol", "pc")] "bob" "pb" "boom"
      rfl rfl rfl rfl rfl rfl rfl rfl rfl rfl rfl
      (by intro x hx; rw [List.mem_singleton] at hx; subst hx; rfl) rfl).2,
   (startContainer_service_accounts.2 happyEnv [] rfl).1⟩

/-- C5 counterexample: a failure of the container create/start call is
returned by StartContainer verbatim, with no stage-identifying context
prepended (every wrapped stage message starts with "failed"), contradicting
the claim that container create/start errors are wrapped. -/
theorem startContainer_create_error_unwrapped :
    (StartContainer envCreateStartFails []).1 = .error "container runtime exploded" ∧
    "container runtime exploded".data.take 6 ≠ "failed".data := by
  constructor
  · rfl
  · decide

/-- C5 (amended): every failure of a provisioning step inside
StartContainer except the container create/start call is returned wrapped
with a stage-identifying message; the create/start error alone is returned
unchanged. -/
theorem startContainer_error_wrapping (env : Env) (opts : List (options → options)) :
    (∀ e, env.entrypointTmpFile = .error e →
      (StartContainer env opts).1 =
        .error ("failed to create entrypoint file: " ++ e)) ∧
    (∀ en e, env.entrypointTmpFile = .ok en →
      createBootstrapConfigFile env (applyOptions opts) = .error e →
      (StartContainer env opts).1 =
        .error ("failed to create bootstrap config file: " ++ e)) ∧
    (∀ en bn e, env.entrypointTmpFile = .ok en →
      createBootstrapConfigFile env (applyOptions opts) = .ok bn →
      env.genericContainer (containerReq (applyOptions opts) en bn) = .error e →
      (StartContainer env opts).1 = .error e) ∧
    (∀ en bn e, env.entrypointTmpFile = .ok en →
      createBootstrapConfigFile env (applyOptions opts) = .ok bn →
      env.genericContainer (containerReq (applyOptions opts) en bn) = .ok () →
      env.host = .error e →
      (StartContainer env opts).1 =
        .error ("failed to get container host: " ++ e)) ∧
    (∀ en bn hostIP e, env.entrypointTmpFile = .ok en →
      createBootstrapConfigFile env (applyOptions opts) = .ok bn →
      env.genericContainer (containerReq (applyOptions opts) en bn) = .ok () →
      env.host = .ok hostIP →
      env.mappedPort defaultKafkaAPIPort = .error e →
      (StartContainer env opts).1 =
        .error ("failed to get mapped Kafka port: " ++ e)) ∧
    (∀ en bn hostIP kp e, env.entrypointTmpFile = .ok en →
      createBootstrapConfigFile env (applyOptions opts) = .ok bn →
      env.genericContainer (containerReq (applyOptions opts) en bn) = .ok () →
      env.host = .ok hostIP →
      env.mappedPort defaultKafkaAPIPort = .ok kp →
      renderNodeConfig env (applyOptions opts) hostIP kp = .error e →
      (StartContainer env opts).1 =
        .error ("failed to render node config: " ++ e)) ∧
    (∀ en bn hostIP kp nodeConfig e, env.entrypointTmpFile = .ok en →
      createBootstrapConfigFile env (applyOptions opts) = .ok bn →
      env.genericContainer (containerReq (applyOptions opts) en bn) = .ok () →
      env.host = .ok hostIP →
      env.mappedPort defaultKafkaAPIPort = .ok kp →
      renderNodeConfig env (applyOptions opts) hostIP kp = .ok nodeConfig →
      env.copyToContainer nodeConfig "/etc/redpanda/redpanda.yaml" 700 = .error e →
      (StartContainer env opts).1 =
        .error ("failed to copy redpanda.yaml into container: " ++ e)) ∧
    (∀ en bn hostIP kp nodeConfig e, env.entrypointTmpFile = .ok en →
      createBootstrapConfigFile env (applyOptions opts) = .ok bn →
      env.genericContainer (containerReq (applyOptions opts) en bn) = .ok () →
      env.host = .ok hostIP →
      env.mappedPort defaultKafkaAPIPort = .ok kp →
      renderNodeConfig env (applyOptions opts) hostIP kp = .ok nodeConfig →
      env.copyToContainer nodeConfig "/etc/redpanda/redpanda.yaml" 700 = .ok () →
      env.waitUntilReady redpandaWaitStrategy = .error e →
      (StartContainer env opts).1 =
        .error ("failed to wait for Redpanda readiness: " ++ e)) ∧
    (∀ en bn hostIP kp nodeConfig e, env.entrypointTmpFile = .ok en →
      createBootstrapConfigFile env (applyOptions opts) = .ok bn →
      env.genericContainer (containerReq (applyOptions opts) en bn) = .ok () →
      env.host = .ok hostIP →
      env.mappedPort defaultKafkaAPIPort = .ok kp →
      renderNodeConfig env (applyOptions opts) hostIP kp = .ok nodeConfig →
      env.copyToContainer nodeConfig "/etc/redpanda/redpanda.yaml" 700 = .ok () →
      env.waitUntilReady redpandaWaitStrategy = .ok () →
      (applyOptions opts).ServiceAccounts.length > 0 →
      env.mappedPort defaultAdminAPIPort = .error e →
      (StartContainer env opts).1 =
        .error ("failed to get mapped Admin API port: " ++ e)) ∧
    (∀ en bn hostIP kp nodeConfig ap e, env.entrypointTmpFile = .ok en →
      createBootstrapConfigFile env (applyOptions opts) = .ok bn →
      env.genericContainer (containerReq (applyOptions opts) en bn) = .ok () →
      env.host = .ok hostIP →
      env.mappedPort defaultKafkaAPIPort = .ok kp →
      renderNodeConfig env (applyOptions opts) hostIP kp = .ok nodeConfig →
      env.copyToContainer nodeConfig "/etc/redpanda/redpanda.yaml" 700 = .ok () →
      env.waitUntilReady redpandaWaitStrategy = .ok () →
      (applyOptions opts).ServiceAccounts.length > 0 →
      env.mappedPort defaultAdminAPIPort = .ok ap →
      env.newAdminAPI ("http://" ++ hostIP ++ ":" ++ toString ap) = .error e →
      (StartContainer env opts).1 =
        .error ("failed to create new admin api client: " ++ e)) ∧
    (∀ en bn hostIP kp nodeConfig ap pre post u p e,
      env.entrypointTmpFile = .ok en →
      createBootstrapConfigFile env (applyOptions opts) = .ok bn →
      env.genericContainer (containerReq (applyOptions opts) en bn) = .ok () →
      env.host = .ok hostIP →
      env.mappedPort defaultKafkaAPIPort = .ok kp →
      renderNodeConfig env (applyOptions opts) hostIP kp = .ok nodeConfig →
      env.copyToContainer nodeConfig "/etc/redpanda/redpanda.yaml" 700 = .ok () →
      env.waitUntilReady redpandaWaitStrategy = .ok () →
      env.mappedPort defaultAdminAPIPort = .ok ap →
      env.newAdminAPI ("http://" ++ hostIP ++ ":" ++ toString ap) = .ok () →
      (applyOptions opts).ServiceAccounts = pre ++ (u, p) :: post →
      (∀ x ∈ pre, env.createUser x.1 x.2 = .ok ()) →
      env.createUser u p = .error e →
      (StartContainer env opts).1 =
        .error ("failed to create service account with username \"" ++ u ++
          "\": " ++ e)) := by
  refine ⟨?_, ?_, ?_, ?_, ?_, ?_, ?_, ?_, ?_, ?_, ?_⟩
  · intro e h1
    simp [StartContainer, h1]
  · intro en e h1 h2
    simp [StartContainer, h1, h2]
  · intro en bn e h1 h2 h3
    simp [StartContainer, h1, h2, h3]
  · intro en bn e h1 h2 h3 h4
    simp [StartContainer, h1, h2, h3, h4]
  · intro en bn hostIP e h1 h2 h3 h4 h5
    simp [StartContainer, h1, h2, h3, h4, h5]
  · intro en bn hostIP kp e h1 h2 h3 h4 h5 h6
    simp [StartContainer, h1, h2, h3, h4, h5, h6]
  · intro en bn hostIP kp nodeConfig e h1 h2 h3 h4 h5 h6 h7
    simp [StartContainer, h1, h2, h3, h4, h5, h6, h7]
  · intro en bn hostIP kp nodeConfig e h1 h2 h3 h4 h5 h6 h7 h8
    simp [StartContainer, h1, h2, h3, h4, h5, h6, h7, h8]
  · intro en bn hostIP kp nodeConfig e h1 h2 h3 h4 h5 h6 h7 h8 hlen h9
    simp only [StartContainer, h1, h2, h3, h4, h5, h6, h7, h8]
    rw [if_pos hlen]
    simp [h9]
  · intro en bn hostIP kp nodeConfig ap e h1 h2 h3 h4 h5 h6 h7 h8 hlen h9 h10
    simp only [StartContainer, h1, h2, h3, h4, h5, h6, h7, h8]
    rw [if_pos hlen]
    simp [h9, h10]
  · intro en bn hostIP kp nodeConfig ap pre post u p e
      h1 h2 h3 h4 h5 h6 h7 h8 h9 h10 hacc hpre hu
    have hlen : (applyOptions opts).ServiceAccounts.length > 0 := by rw [hacc]; simp
    have hcsa := createServiceAccounts_failfast env pre post u p e hpre hu
    simp only [StartContainer, h1, h2, h3, h4, h5, h6, h7, h8]
    rw [if_pos hlen]
    simp only [h9, h10]
    rw [hacc]
    simp [hcsa.1, Except.map]

/-- C5 witness: a host-resolution failure and a config-injection failure
are each returned with their stage message. -/
theorem startContainer_error_wrapping_witness :
    (StartContainer envHostFails []).1 =
      .error ("failed to get container host: " ++ "no host") ∧
    (StartContainer envCopyFails []).1 =
      .error ("failed to copy redpanda.yaml into container: " ++ "copy refused") :=
  ⟨(startContainer_error_wrapping envHostFails []).2.2.2.1
      "/tmp/entrypoint" "/tmp/bootstrap" "no host" rfl rfl rfl rfl,
   (startContainer_error_wrapping envCopyFails []).2.2.2.2.2.2.1
      "/tmp/entrypoint" "/tmp/bootstrap" "localhost" 55001 "rendered node config"
      "copy refused" rfl rfl rfl rfl rfl rfl rfl⟩

/-- C10 witness: at concrete inputs, two distinct accounts accumulate and a
repeated username overwrites only its own password. -/
theorem defaults_and_newServiceAccount_witness :
    mapLookup (WithNewServiceAccount "bob" "pb"
      (WithNewServiceAccount "alice" "pa" defaultOptions)).ServiceAccounts "alice" =
      some "pa" ∧
    mapLookup (WithNewServiceAccount "alice" "p2"
      (WithNewServiceAccount "alice" "p1" defaultOptions)).ServiceAccounts "alice" =
      some "p2" ∧
    mapLookup (WithNewServiceAccount "alice" "p2"
      (WithNewServiceAccount "alice" "p1"
        (WithNewServiceAccount "bob" "pb" defaultOptions))).ServiceAccounts "bob" =
      some "pb" :=
  ⟨(defaults_and_newServiceAccount.2.2.2.2.2.2.2.1 defaultOptions
      "alice" "pa" "bob" "pb" (by decide)).1,
   by
    have h := (defaults_and_newServiceAccount.2.2.2.2.2.2.2.2 defaultOptions
      "alice" "p1" "p2").1
    rw [h]
    decide,
   by
    have h := (defaults_and_newServiceAccount.2.2.2.2.2.2.2.2
      (WithNewServiceAccount "bob" "pb" defaultOptions) "alice" "p1" "p2").2 "bob"
      (by decide)
    rw [h]
    decide⟩

end Redpanda
